import Mathlib

/-!
Shallow embedding of the TARA_Tool_v.2.1 request surface and stage pages.

The repository is a React front end over a FastAPI backend.  The parts the
claims speak about are:
  - src/ui/web/src/api.js              (the HTTP client wrappers)
  - src/ui/web/src/pages/Stage1.jsx .. Stage7.jsx  (the seven stage pages;
    Stage3 lives in the same file as Stage2, Stage6 and Stage7 are the
    unnamed parts 002 and 003)
  - src/ui/web/src/components/FileUpload.jsx (FileUpload and ModifyPanel)

Each axios call is embedded as a pure value of type Request.  Each page
handler is an async JavaScript function whose only suspension points are
awaited HTTP calls; it is embedded as a pure function from the outcomes of
those awaits (Except values) and the pre-state of the component to the
post-state, the list of requests issued, and the handler result
(Except.error when an uncaught rejection propagates out of the handler).
React state setters become functional record updates, applied in source
order.  A try/finally block is embedded by applying the finally update on
every exit path of the try block; a handler with no try/catch propagates
the first rejection and skips the statements after it.
-/

/-- Parameters of a request body, as the key-value pairs of the JS object
literal passed to axios. -/
abbrev Params := List (String × String)

inductive HttpMethod where
  | get
  | post
deriving DecidableEq, Repr

/-- One HTTP request as issued by an axios call in src/api.js. -/
structure Request where
  method : HttpMethod
  url : String
  body : Params
deriving DecidableEq, Repr

/-- API_BASE in src/api.js. -/
def API_BASE : String := "http://localhost:8000"

namespace api

/-- api.runStage in src/api.js: POST to /run-stage/:id with an optional
body defaulting to the empty object. -/
def runStage (id : Nat) (data : Params := []) : Request :=
  { method := HttpMethod.post
    url := API_BASE ++ "/run-stage/" ++ toString id
    body := data }

/-- api.getAssets in src/api.js: GET /assets. -/
def getAssets : Request :=
  { method := HttpMethod.get, url := API_BASE ++ "/assets", body := [] }

/-- api.getCsv in src/api.js: GET /csv/:name. -/
def getCsv (name : String) : Request :=
  { method := HttpMethod.get, url := API_BASE ++ "/csv/" ++ name, body := [] }

end api

/-- One row of the list-assets response, as consumed by Stage2.jsx
(asset.assetId and asset.description). -/
structure Asset where
  assetId : String
  description : String
deriving DecidableEq, Repr

/-- True when an awaited call rejected. -/
def isFail {α β : Type} : Except α β → Bool
  | Except.error _ => true
  | Except.ok _ => false

/-- The two option elements rendered by the stakeholder select of
Stage2.jsx and Stage7.jsx, in document order. -/
def stakeholderOptions : List String := ["Road User", "OEM"]

namespace Stage1

/-- Component state of Stage1.jsx: useState(false) for loading and
useState(null) for csv.  The page declares no error state. -/
structure State where
  loading : Bool
  csv : Option String
deriving DecidableEq, Repr

def init : State := { loading := false, csv := none }

/-- runStage in Stage1.jsx.  The handler has no try/catch: a rejection of
either await propagates out of the handler and the statements after the
failing await, including the final setLoading(false), do not run. -/
def runStage (ro : Except String Unit) (co : Except String String)
    (s : State) : State × List Request × Except String Unit :=
  let s1 : State := { s with loading := true }
  match ro with
  | Except.error e => (s1, [api.runStage 1], Except.error e)
  | Except.ok _ =>
    match co with
    | Except.error e =>
      (s1, [api.runStage 1, api.getCsv "assets.csv"], Except.error e)
    | Except.ok data =>
      ({ s1 with csv := some data, loading := false },
        [api.runStage 1, api.getCsv "assets.csv"], Except.ok ())

/-- The run button of Stage1.jsx carries no disabled attribute, so it is
never disabled. -/
def runButtonDisabled (_ : State) : Bool := false

/-- The JSX of Stage1.jsx renders no error element at all. -/
def rendersErrorIndicator (_ : State) : Bool := false

end Stage1

namespace Stage2

/-- Component state of Stage2.jsx. -/
structure State where
  loading : Bool
  csv : Option String
  stakeholder : String
  assets : List Asset
  assetId : String
  error : Option String
deriving DecidableEq, Repr

def emptyAssetsMsg : String :=
  "Run Stage 1 to populate assets before generating damage scenarios."

def init : State :=
  { loading := false, csv := none, stakeholder := "Road User",
    assets := [], assetId := "", error := none }

/-- fetchAssets in the useEffect of Stage2.jsx.  The outcome is the result
of the awaited api.getAssets call; Except.ok carries res.data, which may
be absent (res.data || [] defaults it to the empty list). -/
def fetchAssets (outcome : Except String (Option (List Asset)))
    (s : State) : State :=
  match outcome with
  | Except.error _ =>
    { s with error := some "Unable to load assets. Run Stage 1 first." }
  | Except.ok data =>
    let list := data.getD []
    let s1 := { s with assets := list }
    match list with
    | [] =>
      { s1 with error := some emptyAssetsMsg }
    | a :: _ =>
      { s1 with assetId := a.assetId, error := none }

/-- runStage in Stage2.jsx.  The empty string is the falsy assetId value
(the guard if (!assetId) fires exactly when assetId is the empty string).
The early return still passes through the finally block, so loading is
false on every exit; both rejections are caught and converted into the
error message. -/
def runStage (ro : Except String Unit) (co : Except String String)
    (s : State) : State × List Request × Except String Unit :=
  if s.assetId = "" then
    ({ s with
        error := some "Select an asset before running Stage 2.",
        loading := false }, [], Except.ok ())
  else
    let s1 := { s with loading := true, error := none }
    let req := api.runStage 2
      [("stakeholder", s.stakeholder), ("assetId", s.assetId)]
    match ro with
    | Except.error _ =>
      ({ s1 with
          error := some "Failed to run Stage 2. Check backend logs.",
          loading := false }, [req], Except.ok ())
    | Except.ok _ =>
      match co with
      | Except.error _ =>
        ({ s1 with
            error := some "Failed to run Stage 2. Check backend logs.",
            loading := false },
          [req, api.getCsv "damage_scenarios.csv"], Except.ok ())
      | Except.ok data =>
        ({ s1 with csv := some data, loading := false },
          [req, api.getCsv "damage_scenarios.csv"], Except.ok ())

/-- disabled={loading || !assetId} on the run button of Stage2.jsx. -/
def runButtonDisabled (s : State) : Bool := s.loading || s.assetId = ""

/-- The JSX of Stage2.jsx renders the red error div iff error is set. -/
def rendersErrorIndicator (s : State) : Bool := s.error.isSome

/-- User-visible events of the Stage 2 page: the useEffect fetch
completing, picking an asset from the asset select, picking one of the two
rendered stakeholder options, and a full run-button click (with the
outcomes of its two awaits). -/
inductive Ev where
  | fetched (outcome : Except String (Option (List Asset)))
  | chooseAsset (v : String)
  | chooseStakeholder (i : Fin stakeholderOptions.length)
  | run (ro : Except String Unit) (co : Except String String)

def step (s : State) (e : Ev) : State × List Request :=
  match e with
  | Ev.fetched o => (fetchAssets o s, [api.getAssets])
  | Ev.chooseAsset v => ({ s with assetId := v }, [])
  | Ev.chooseStakeholder i =>
    ({ s with stakeholder := stakeholderOptions.get i }, [])
  | Ev.run ro co =>
    let r := runStage ro co s
    (r.1, r.2.1)

/-- Run a sequence of page events, accumulating every request issued. -/
def exec : State → List Ev → State × List Request
  | s, [] => (s, [])
  | s, e :: rest =>
    let r1 := step s e
    let r2 := exec r1.1 rest
    (r2.1, r1.2 ++ r2.2)

end Stage2

/-- Component state shared by Stage3.jsx, Stage4.jsx, Stage5.jsx and
Stage6.jsx, which declare exactly loading, csv and error. -/
structure GuardedState where
  loading : Bool
  csv : Option String
  error : Option String
deriving DecidableEq, Repr

def GuardedState.init : GuardedState :=
  { loading := false, csv := none, error := none }

/-- The common runStage body of Stage3.jsx, Stage4.jsx, Stage5.jsx and
Stage6.jsx, which differ only in the stage id, the csv name and the error
message: try sets loading true and error null, awaits the run then the
csv fetch, stores the csv; catch sets the error message; finally sets
loading false. -/
def guardedRun (stageId : Nat) (csvName failMsg : String)
    (ro : Except String Unit) (co : Except String String)
    (s : GuardedState) : GuardedState × List Request × Except String Unit :=
  let s1 := { s with loading := true, error := none }
  match ro with
  | Except.error _ =>
    ({ s1 with error := some failMsg, loading := false },
      [api.runStage stageId], Except.ok ())
  | Except.ok _ =>
    match co with
    | Except.error _ =>
      ({ s1 with error := some failMsg, loading := false },
        [api.runStage stageId, api.getCsv csvName], Except.ok ())
    | Except.ok data =>
      ({ s1 with csv := some data, loading := false },
        [api.runStage stageId, api.getCsv csvName], Except.ok ())

namespace Stage3

abbrev State := GuardedState

def init : State := GuardedState.init

/-- runStage in Stage3.jsx (second component of the Stage2.jsx file). -/
def runStage (ro : Except String Unit) (co : Except String String)
    (s : State) : State × List Request × Except String Unit :=
  guardedRun 3 "impact_rating.csv" "Failed to run Stage 3. Check backend logs." ro co s

/-- disabled={loading} on the run button of Stage3.jsx. -/
def runButtonDisabled (s : State) : Bool := s.loading

/-- The JSX of Stage3.jsx renders the red error div iff error is set. -/
def rendersErrorIndicator (s : State) : Bool := s.error.isSome

end Stage3

namespace Stage4

abbrev State := GuardedState

def init : State := GuardedState.init

/-- runStage in Stage4.jsx. -/
def runStage (ro : Except String Unit) (co : Except String String)
    (s : State) : State × List Request × Except String Unit :=
  guardedRun 4 "threat_scenarios.csv" "Failed to run Stage 4. Check backend logs." ro co s

/-- disabled={loading} on the run button of Stage4.jsx. -/
def runButtonDisabled (s : State) : Bool := s.loading

/-- The JSX of Stage4.jsx renders the red error div iff error is set. -/
def rendersErrorIndicator (s : State) : Bool := s.error.isSome

end Stage4

namespace Stage5

abbrev State := GuardedState

def init : State := GuardedState.init

/-- runStage in Stage5.jsx. -/
def runStage (ro : Except String Unit) (co : Except String String)
    (s : State) : State × List Request × Except String Unit :=
  guardedRun 5 "attack_paths.csv" "Failed to run Stage 5. Check backend logs." ro co s

/-- disabled={loading} on the run button of Stage5.jsx. -/
def runButtonDisabled (s : State) : Bool := s.loading

/-- The JSX of Stage5.jsx renders the red error div iff error is set. -/
def rendersErrorIndicator (s : State) : Bool := s.error.isSome

end Stage5

namespace Stage6

abbrev State := GuardedState

def init : State := GuardedState.init

/-- runStage in Stage6.jsx (src/unnamed/part_002). -/
def runStage (ro : Except String Unit) (co : Except String String)
    (s : State) : State × List Request × Except String Unit :=
  guardedRun 6 "attack_feasibilities.csv" "Failed to run Stage 6. Check backend logs." ro co s

/-- disabled={loading} on the run button of Stage6.jsx. -/
def runButtonDisabled (s : State) : Bool := s.loading

/-- The JSX of Stage6.jsx renders the red error div iff error is set. -/
def rendersErrorIndicator (s : State) : Bool := s.error.isSome

end Stage6

namespace Stage7

/-- Component state of Stage7.jsx (src/unnamed/part_003). -/
structure State where
  loading : Bool
  csv : Option String
  stakeholder : String
  error : Option String
deriving DecidableEq, Repr

def init : State :=
  { loading := false, csv := none, stakeholder := "Road User", error := none }

/-- runStage in Stage7.jsx: same guarded shape, with the body
containing the current stakeholder selection. -/
def runStage (ro : Except String Unit) (co : Except String String)
    (s : State) : State × List Request × Except String Unit :=
  let s1 := { s with loading := true, error := none }
  let req := api.runStage 7 [("stakeholder", s.stakeholder)]
  match ro with
  | Except.error _ =>
    ({ s1 with
        error := some "Failed to run Stage 7. Check backend logs.",
        loading := false }, [req], Except.ok ())
  | Except.ok _ =>
    match co with
    | Except.error _ =>
      ({ s1 with
          error := some "Failed to run Stage 7. Check backend logs.",
          loading := false },
        [req, api.getCsv "risk_values.csv"], Except.ok ())
    | Except.ok data =>
      ({ s1 with csv := some data, loading := false },
        [req, api.getCsv "risk_values.csv"], Except.ok ())

/-- disabled={loading} on the run button of Stage7.jsx. -/
def runButtonDisabled (s : State) : Bool := s.loading

/-- The JSX of Stage7.jsx renders the red error div iff error is set. -/
def rendersErrorIndicator (s : State) : Bool := s.error.isSome

/-- User-visible events of the Stage 7 page: picking one of the two
rendered stakeholder options, and a run-button click. -/
inductive Ev where
  | chooseStakeholder (i : Fin stakeholderOptions.length)
  | run (ro : Except String Unit) (co : Except String String)

def step (s : State) (e : Ev) : State × List Request :=
  match e with
  | Ev.chooseStakeholder i =>
    ({ s with stakeholder := stakeholderOptions.get i }, [])
  | Ev.run ro co =>
    let r := runStage ro co s
    (r.1, r.2.1)

/-- Run a sequence of page events, accumulating every request issued. -/
def exec : State → List Ev → State × List Request
  | s, [] => (s, [])
  | s, e :: rest =>
    let r1 := step s e
    let r2 := exec r1.1 rest
    (r2.1, r1.2 ++ r2.2)

end Stage7

/-- A selected file, as handed to the components by the file input
(identified here by its name; the components never inspect it). -/
abbrev JsFile := String

namespace FileUpload

/-- Component state of FileUpload in FileUpload.jsx: useState(null). -/
structure State where
  file : Option JsFile
deriving DecidableEq, Repr

def init : State := { file := none }

/-- handleUpload in FileUpload.jsx: returns without calling onUpload when
no file is selected, otherwise calls onUpload(file) once.  The result is
the list of onUpload invocations. -/
def handleUpload (s : State) : List JsFile :=
  match s.file with
  | none => []
  | some f => [f]

end FileUpload

namespace ModifyPanel

/-- Component state of ModifyPanel in FileUpload.jsx:
useState("") for text, useState(null) for file. -/
structure State where
  text : String
  file : Option JsFile
deriving DecidableEq, Repr

def init : State := { text := "", file := none }

/-- handleSend in ModifyPanel.jsx (same file as FileUpload): calls
onSubmit(text, file) once, then setText("").  The result is the new state
and the list of onSubmit invocations with their arguments. -/
def handleSend (s : State) : State × List (String × Option JsFile) :=
  ({ text := "", file := s.file }, [(s.text, s.file)])

end ModifyPanel

/-- The stakeholder field of a request body, when present. -/
def stakeholderParamOf (r : Request) : Option String :=
  r.body.lookup "stakeholder"

/-- True for the event of picking a stakeholder option on the Stage 2
page. -/
def Stage2.Ev.isChooseStakeholder : Stage2.Ev → Bool
  | Stage2.Ev.chooseStakeholder _ => true
  | _ => false

/-- True for the event of picking a stakeholder option on the Stage 7
page. -/
def Stage7.Ev.isChooseStakeholder : Stage7.Ev → Bool
  | Stage7.Ev.chooseStakeholder _ => true
  | _ => false

theorem stakeholderParamOf_runStage_cons (i : Nat) (v : String)
    (rest : Params) :
    stakeholderParamOf (api.runStage i (("stakeholder", v) :: rest)) =
      some v := by
  simp [stakeholderParamOf, api.runStage, List.lookup]

theorem stakeholderParamOf_getCsv (n : String) :
    stakeholderParamOf (api.getCsv n) = none := rfl

theorem stakeholderParamOf_getAssets :
    stakeholderParamOf api.getAssets = none := rfl

theorem fetchAssets_stakeholder (o : Except String (Option (List Asset)))
    (s : Stage2.State) :
    (Stage2.fetchAssets o s).stakeholder = s.stakeholder := by
  cases o with
  | error e => rfl
  | ok data =>
    simp only [Stage2.fetchAssets]
    cases data.getD [] <;> rfl

theorem stage2_runStage_stakeholder (ro : Except String Unit)
    (co : Except String String) (s : Stage2.State) :
    (Stage2.runStage ro co s).1.stakeholder = s.stakeholder := by
  by_cases h : s.assetId = "" <;>
    cases ro <;> cases co <;> simp [Stage2.runStage, h]

theorem stage2_runStage_requests (ro : Except String Unit)
    (co : Except String String) (s : Stage2.State) :
    ∀ r ∈ (Stage2.runStage ro co s).2.1,
      stakeholderParamOf r = none ∨
      stakeholderParamOf r = some s.stakeholder := by
  by_cases h : s.assetId = "" <;>
    cases ro <;> cases co <;>
    simp [Stage2.runStage, h, stakeholderParamOf_runStage_cons,
      stakeholderParamOf_getCsv]

theorem stage2_step_stakeholder_unchanged (s : Stage2.State)
    (e : Stage2.Ev) (h : Stage2.Ev.isChooseStakeholder e = false) :
    (Stage2.step s e).1.stakeholder = s.stakeholder := by
  cases e with
  | fetched o => exact fetchAssets_stakeholder o s
  | chooseAsset v => rfl
  | chooseStakeholder i => simp [Stage2.Ev.isChooseStakeholder] at h
  | run ro co => exact stage2_runStage_stakeholder ro co s

theorem stage2_step_stakeholder_mem (s : Stage2.State) (e : Stage2.Ev) :
    (Stage2.step s e).1.stakeholder = s.stakeholder ∨
    (Stage2.step s e).1.stakeholder ∈ stakeholderOptions := by
  cases e with
  | fetched o => exact Or.inl (fetchAssets_stakeholder o s)
  | chooseAsset v => exact Or.inl rfl
  | chooseStakeholder i =>
    exact Or.inr (by simp [Stage2.step])
  | run ro co => exact Or.inl (stage2_runStage_stakeholder ro co s)

theorem stage2_step_requests (s : Stage2.State) (e : Stage2.Ev) :
    ∀ r ∈ (Stage2.step s e).2,
      stakeholderParamOf r = none ∨
      stakeholderParamOf r = some s.stakeholder := by
  cases e with
  | fetched o => simp [Stage2.step, stakeholderParamOf_getAssets]
  | chooseAsset v => simp [Stage2.step]
  | chooseStakeholder i => simp [Stage2.step]
  | run ro co =>
    intro r hr
    exact stage2_runStage_requests ro co s r (by simpa [Stage2.step] using hr)

theorem stage7_runStage_stakeholder (ro : Except String Unit)
    (co : Except String String) (s : Stage7.State) :
    (Stage7.runStage ro co s).1.stakeholder = s.stakeholder := by
  cases ro <;> cases co <;> simp [Stage7.runStage]

theorem stage7_runStage_requests (ro : Except String Unit)
    (co : Except String String) (s : Stage7.State) :
    ∀ r ∈ (Stage7.runStage ro co s).2.1,
      stakeholderParamOf r = none ∨
      stakeholderParamOf r = some s.stakeholder := by
  cases ro <;> cases co <;>
    simp [Stage7.runStage, stakeholderParamOf_runStage_cons,
      stakeholderParamOf_getCsv]

theorem stage7_step_stakeholder_unchanged (s : Stage7.State)
    (e : Stage7.Ev) (h : Stage7.Ev.isChooseStakeholder e = false) :
    (Stage7.step s e).1.stakeholder = s.stakeholder := by
  cases e with
  | chooseStakeholder i => simp [Stage7.Ev.isChooseStakeholder] at h
  | run ro co => exact stage7_runStage_stakeholder ro co s

theorem stage7_step_stakeholder_mem (s : Stage7.State) (e : Stage7.Ev) :
    (Stage7.step s e).1.stakeholder = s.stakeholder ∨
    (Stage7.step s e).1.stakeholder ∈ stakeholderOptions := by
  cases e with
  | chooseStakeholder i =>
    exact Or.inr (by simp [Stage7.step])
  | run ro co => exact Or.inl (stage7_runStage_stakeholder ro co s)

theorem stage7_step_requests (s : Stage7.State) (e : Stage7.Ev) :
    ∀ r ∈ (Stage7.step s e).2,
      stakeholderParamOf r = none ∨
      stakeholderParamOf r = some s.stakeholder := by
  cases e with
  | chooseStakeholder i => simp [Stage7.step]
  | run ro co =>
    intro r hr
    exact stage7_runStage_requests ro co s r (by simpa [Stage7.step] using hr)

theorem stage2_exec_stakeholder_mem (evs : List Stage2.Ev) :
    ∀ s : Stage2.State, s.stakeholder ∈ stakeholderOptions →
      (Stage2.exec s evs).1.stakeholder ∈ stakeholderOptions ∧
      ∀ r ∈ (Stage2.exec s evs).2, ∀ v, stakeholderParamOf r = some v →
        v ∈ stakeholderOptions := by
  induction evs with
  | nil =>
    intro s hs
    exact ⟨hs, by simp [Stage2.exec]⟩
  | cons e rest ih =>
    intro s hs
    have hstep : (Stage2.step s e).1.stakeholder ∈ stakeholderOptions := by
      cases stage2_step_stakeholder_mem s e with
      | inl h => rw [h]; exact hs
      | inr h => exact h
    obtain ⟨h1, h2⟩ := ih (Stage2.step s e).1 hstep
    refine ⟨by simpa [Stage2.exec] using h1, ?_⟩
    intro r hr v hv
    rw [show Stage2.exec s (e :: rest) =
      ((Stage2.exec (Stage2.step s e).1 rest).1,
        (Stage2.step s e).2 ++ (Stage2.exec (Stage2.step s e).1 rest).2)
      from rfl] at hr
    simp only [List.mem_append] at hr
    cases hr with
    | inl h =>
      cases stage2_step_requests s e r h with
      | inl hn => rw [hn] at hv; cases hv
      | inr hsome =>
        rw [hsome] at hv
        rw [← Option.some_inj.mp hv]
        exact hs
    | inr h => exact h2 r h v hv

theorem stage2_exec_stakeholder_default (evs : List Stage2.Ev) :
    ∀ s : Stage2.State,
      (∀ e ∈ evs, Stage2.Ev.isChooseStakeholder e = false) →
      (Stage2.exec s evs).1.stakeholder = s.stakeholder ∧
      ∀ r ∈ (Stage2.exec s evs).2, ∀ v, stakeholderParamOf r = some v →
        v = s.stakeholder := by
  induction evs with
  | nil =>
    intro s _
    exact ⟨rfl, by simp [Stage2.exec]⟩
  | cons e rest ih =>
    intro s hno
    have he : Stage2.Ev.isChooseStakeholder e = false :=
      hno e (List.mem_cons_self e rest)
    have hrest : ∀ x ∈ rest, Stage2.Ev.isChooseStakeholder x = false :=
      fun x hx => hno x (List.mem_cons_of_mem e hx)
    have hstep : (Stage2.step s e).1.stakeholder = s.stakeholder :=
      stage2_step_stakeholder_unchanged s e he
    obtain ⟨h1, h2⟩ := ih (Stage2.step s e).1 hrest
    refine ⟨by simpa [Stage2.exec, hstep] using h1, ?_⟩
    intro r hr v hv
    rw [show Stage2.exec s (e :: rest) =
      ((Stage2.exec (Stage2.step s e).1 rest).1,
        (Stage2.step s e).2 ++ (Stage2.exec (Stage2.step s e).1 rest).2)
      from rfl] at hr
    simp only [List.mem_append] at hr
    cases hr with
    | inl h =>
      cases stage2_step_requests s e r h with
      | inl hn => rw [hn] at hv; cases hv
      | inr hsome =>
        rw [hsome] at hv
        exact (Option.some_inj.mp hv).symm
    | inr h => exact (h2 r h v hv).trans hstep

theorem stage7_exec_stakeholder_mem (evs : List Stage7.Ev) :
    ∀ s : Stage7.State, s.stakeholder ∈ stakeholderOptions →
      (Stage7.exec s evs).1.stakeholder ∈ stakeholderOptions ∧
      ∀ r ∈ (Stage7.exec s evs).2, ∀ v, stakeholderParamOf r = some v →
        v ∈ stakeholderOptions := by
  induction evs with
  | nil =>
    intro s hs
    exact ⟨hs, by simp [Stage7.exec]⟩
  | cons e rest ih =>
    intro s hs
    have hstep : (Stage7.step s e).1.stakeholder ∈ stakeholderOptions := by
      cases stage7_step_stakeholder_mem s e with
      | inl h => rw [h]; exact hs
      | inr h => exact h
    obtain ⟨h1, h2⟩ := ih (Stage7.step s e).1 hstep
    refine ⟨by simpa [Stage7.exec] using h1, ?_⟩
    intro r hr v hv
    rw [show Stage7.exec s (e :: rest) =
      ((Stage7.exec (Stage7.step s e).1 rest).1,
        (Stage7.step s e).2 ++ (Stage7.exec (Stage7.step s e).1 rest).2)
      from rfl] at hr
    simp only [List.mem_append] at hr
    cases hr with
    | inl h =>
      cases stage7_step_requests s e r h with
      | inl hn => rw [hn] at hv; cases hv
      | inr hsome =>
        rw [hsome] at hv
        rw [← Option.some_inj.mp hv]
        exact hs
    | inr h => exact h2 r h v hv

theorem stage7_exec_stakeholder_default (evs : List Stage7.Ev) :
    ∀ s : Stage7.State,
      (∀ e ∈ evs, Stage7.Ev.isChooseStakeholder e = false) →
      (Stage7.exec s evs).1.stakeholder = s.stakeholder ∧
      ∀ r ∈ (Stage7.exec s evs).2, ∀ v, stakeholderParamOf r = some v →
        v = s.stakeholder := by
  induction evs with
  | nil =>
    intro s _
    exact ⟨rfl, by simp [Stage7.exec]⟩
  | cons e rest ih =>
    intro s hno
    have he : Stage7.Ev.isChooseStakeholder e = false :=
      hno e (List.mem_cons_self e rest)
    have hrest : ∀ x ∈ rest, Stage7.Ev.isChooseStakeholder x = false :=
      fun x hx => hno x (List.mem_cons_of_mem e hx)
    have hstep : (Stage7.step s e).1.stakeholder = s.stakeholder :=
      stage7_step_stakeholder_unchanged s e he
    obtain ⟨h1, h2⟩ := ih (Stage7.step s e).1 hrest
    refine ⟨by simpa [Stage7.exec, hstep] using h1, ?_⟩
    intro r hr v hv
    rw [show Stage7.exec s (e :: rest) =
      ((Stage7.exec (Stage7.step s e).1 rest).1,
        (Stage7.step s e).2 ++ (Stage7.exec (Stage7.step s e).1 rest).2)
      from rfl] at hr
    simp only [List.mem_append] at hr
    cases hr with
    | inl h =>
      cases stage7_step_requests s e r h with
      | inl hn => rw [hn] at hv; cases hv
      | inr hsome =>
        rw [hsome] at hv
        exact (Option.some_inj.mp hv).symm
    | inr h => exact (h2 r h v hv).trans hstep

theorem guardedRun_loading (i : Nat) (cn fm : String)
    (ro : Except String Unit) (co : Except String String)
    (s : GuardedState) : (guardedRun i cn fm ro co s).1.loading = false := by
  cases ro <;> cases co <;> simp [guardedRun]

theorem guardedRun_error_on_fail (i : Nat) (cn fm : String)
    (ro : Except String Unit) (co : Except String String)
    (s : GuardedState) (h : (isFail ro || isFail co) = true) :
    (guardedRun i cn fm ro co s).1.error = some fm := by
  cases ro <;> cases co <;> simp [guardedRun] <;> simp [isFail] at h

theorem guardedRun_csv_on_fail (i : Nat) (cn fm : String)
    (ro : Except String Unit) (co : Except String String)
    (s : GuardedState) (h : (isFail ro || isFail co) = true) :
    (guardedRun i cn fm ro co s).1.csv = s.csv := by
  cases ro <;> cases co <;> simp [guardedRun] <;> simp [isFail] at h

theorem guardedRun_trace_ok (i : Nat) (cn fm : String) (d : String)
    (s : GuardedState) :
    (guardedRun i cn fm (Except.ok ()) (Except.ok d) s).2.1 =
      [api.runStage i, api.getCsv cn] := rfl

theorem stage2_runStage_loading (ro : Except String Unit)
    (co : Except String String) (s : Stage2.State) :
    (Stage2.runStage ro co s).1.loading = false := by
  by_cases h : s.assetId = "" <;>
    cases ro <;> cases co <;> simp [Stage2.runStage, h]

theorem stage2_runStage_error_on_fail (ro : Except String Unit)
    (co : Except String String) (s : Stage2.State)
    (h : (isFail ro || isFail co) = true) :
    (Stage2.runStage ro co s).1.error ≠ none := by
  by_cases ha : s.assetId = "" <;>
    cases ro <;> cases co <;> simp [Stage2.runStage, ha] <;>
    simp [isFail] at h

theorem stage2_runStage_csv_on_fail (ro : Except String Unit)
    (co : Except String String) (s : Stage2.State)
    (h : (isFail ro || isFail co) = true) :
    (Stage2.runStage ro co s).1.csv = s.csv := by
  by_cases ha : s.assetId = "" <;>
    cases ro <;> cases co <;> simp [Stage2.runStage, ha] <;>
    simp [isFail] at h

theorem stage7_runStage_loading (ro : Except String Unit)
    (co : Except String String) (s : Stage7.State) :
    (Stage7.runStage ro co s).1.loading = false := by
  cases ro <;> cases co <;> simp [Stage7.runStage]

theorem stage7_runStage_error_on_fail (ro : Except String Unit)
    (co : Except String String) (s : Stage7.State)
    (h : (isFail ro || isFail co) = true) :
    (Stage7.runStage ro co s).1.error ≠ none := by
  cases ro <;> cases co <;> simp [Stage7.runStage] <;> simp [isFail] at h

theorem stage7_runStage_csv_on_fail (ro : Except String Unit)
    (co : Except String String) (s : Stage7.State)
    (h : (isFail ro || isFail co) = true) :
    (Stage7.runStage ro co s).1.csv = s.csv := by
  cases ro <;> cases co <;> simp [Stage7.runStage] <;> simp [isFail] at h

/-- Claim C1 counterexample: on the Stage 1 page a failed run request does
not release the in-flight state.  From the initial state, when the
run-stage await rejects, the handler (which has no try/catch/finally)
leaves the loading flag stuck at true. -/
theorem C1_counterexample :
    ((Stage1.runStage (Except.error "backend unreachable") (Except.ok "")
      Stage1.init).1).loading = true := rfl

/-- Claim C1 (amended): on the Stage 2 through Stage 7 pages, every
failure path of a run resets the loading flag to false and surfaces the
error in the page error state; the Stage 1 page has no catch/finally, so a
failed run leaves its loading flag set (the rejection propagates out of
the handler). -/
theorem C1_failure_releases_loading_stages2to7
    (ro : Except String Unit) (co : Except String String)
    (s2 : Stage2.State) (s3 : Stage3.State) (s4 : Stage4.State)
    (s5 : Stage5.State) (s6 : Stage6.State) (s7 : Stage7.State) :
    ((Stage2.runStage ro co s2).1.loading = false ∧
      ((isFail ro || isFail co) = true →
        (Stage2.runStage ro co s2).1.error ≠ none)) ∧
    ((Stage3.runStage ro co s3).1.loading = false ∧
      ((isFail ro || isFail co) = true →
        (Stage3.runStage ro co s3).1.error ≠ none)) ∧
    ((Stage4.runStage ro co s4).1.loading = false ∧
      ((isFail ro || isFail co) = true →
        (Stage4.runStage ro co s4).1.error ≠ none)) ∧
    ((Stage5.runStage ro co s5).1.loading = false ∧
      ((isFail ro || isFail co) = true →
        (Stage5.runStage ro co s5).1.error ≠ none)) ∧
    ((Stage6.runStage ro co s6).1.loading = false ∧
      ((isFail ro || isFail co) = true →
        (Stage6.runStage ro co s6).1.error ≠ none)) ∧
    ((Stage7.runStage ro co s7).1.loading = false ∧
      ((isFail ro || isFail co) = true →
        (Stage7.runStage ro co s7).1.error ≠ none)) := by
  refine ⟨⟨stage2_runStage_loading ro co s2, stage2_runStage_error_on_fail ro co s2⟩,
    ⟨guardedRun_loading 3 _ _ ro co s3, ?_⟩,
    ⟨guardedRun_loading 4 _ _ ro co s4, ?_⟩,
    ⟨guardedRun_loading 5 _ _ ro co s5, ?_⟩,
    ⟨guardedRun_loading 6 _ _ ro co s6, ?_⟩,
    ⟨stage7_runStage_loading ro co s7, stage7_runStage_error_on_fail ro co s7⟩⟩ <;>
  · intro h
    simp [Stage3.runStage, Stage4.runStage, Stage5.runStage, Stage6.runStage,
      guardedRun_error_on_fail _ _ _ ro co _ h]

/-- Claim C1 witness: a concrete failed run on Stage 3 ends with loading
false and the error state set. -/
theorem C1_failure_releases_loading_stages2to7_witness :
    (Stage3.runStage (Except.error "timeout") (Except.ok "") Stage3.init).1.error ≠
      none :=
  (C1_failure_releases_loading_stages2to7 (Except.error "timeout")
    (Except.ok "") Stage2.init Stage3.init Stage4.init Stage5.init
    Stage6.init Stage7.init).2.1.2 rfl

/-- Claim C2 counterexample: the Stage 1 run button carries no disabled
attribute, so with a run in flight (loading true) the rendered run control
is still enabled and a second run can be issued. -/
theorem C2_counterexample :
    ({ Stage1.init with loading := true } : Stage1.State).loading = true ∧
    Stage1.runButtonDisabled { Stage1.init with loading := true } = false :=
  ⟨rfl, rfl⟩

/-- Claim C2 (amended): on the Stage 2 through Stage 7 pages, whenever a
run is in flight (loading true) the rendered run control is disabled; the
Stage 1 run button is never disabled. -/
theorem C2_loading_disables_run_stages2to7
    (s2 : Stage2.State) (s3 : Stage3.State) (s4 : Stage4.State)
    (s5 : Stage5.State) (s6 : Stage6.State) (s7 : Stage7.State) :
    (s2.loading = true → Stage2.runButtonDisabled s2 = true) ∧
    (s3.loading = true → Stage3.runButtonDisabled s3 = true) ∧
    (s4.loading = true → Stage4.runButtonDisabled s4 = true) ∧
    (s5.loading = true → Stage5.runButtonDisabled s5 = true) ∧
    (s6.loading = true → Stage6.runButtonDisabled s6 = true) ∧
    (s7.loading = true → Stage7.runButtonDisabled s7 = true) := by
  refine ⟨?_, ?_, ?_, ?_, ?_, ?_⟩ <;>
  · intro h
    simp [Stage2.runButtonDisabled, Stage3.runButtonDisabled,
      Stage4.runButtonDisabled, Stage5.runButtonDisabled,
      Stage6.runButtonDisabled, Stage7.runButtonDisabled, h]

/-- Claim C2 witness: with a Stage 2 run in flight the Stage 2 run control
is disabled. -/
theorem C2_loading_disables_run_stages2to7_witness :
    Stage2.runButtonDisabled { Stage2.init with loading := true } = true :=
  (C2_loading_disables_run_stages2to7 { Stage2.init with loading := true }
    Stage3.init Stage4.init Stage5.init Stage6.init Stage7.init).1 rfl

/-- Claim C3 counterexample: a Stage 2 run is never dispatched without an
assetId.  In the initial state (empty assetId) the run handler issues no
request at all, refuting that a run may be dispatched without an assetId. -/
theorem C3_counterexample :
    Stage2.init.assetId = "" ∧
    (Stage2.runStage (Except.ok ()) (Except.ok "rows") Stage2.init).2.1 = [] ∧
    (Stage2.runStage (Except.ok ()) (Except.ok "rows") Stage2.init).1.error =
      some "Select an asset before running Stage 2." :=
  ⟨rfl, rfl, rfl⟩

/-- Claim C3 (amended): every Stage 2 run invocation supplies both
stakeholder and a non-empty assetId — with an empty assetId the handler
dispatches nothing and shows a validation message instead — and every
Stage 7 run invocation supplies stakeholder. -/
theorem C3_run_parameters_stage2_stage7
    (ro : Except String Unit) (co : Except String String)
    (s : Stage2.State) (t : Stage7.State) :
    (s.assetId = "" → (Stage2.runStage ro co s).2.1 = [] ∧
      (Stage2.runStage ro co s).1.error =
        some "Select an asset before running Stage 2.") ∧
    (s.assetId ≠ "" → (Stage2.runStage ro co s).2.1.head? =
      some (api.runStage 2
        [("stakeholder", s.stakeholder), ("assetId", s.assetId)])) ∧
    (Stage7.runStage ro co t).2.1.head? =
      some (api.runStage 7 [("stakeholder", t.stakeholder)]) := by
  refine ⟨?_, ?_, ?_⟩
  · intro h
    simp [Stage2.runStage, h]
  · intro h
    cases ro <;> cases co <;> simp [Stage2.runStage, h]
  · cases ro <;> cases co <;> simp [Stage7.runStage]

/-- Claim C3 witness: with asset A1 selected, the dispatched Stage 2 run
request carries the stakeholder and the non-empty assetId; a Stage 7 run
carries the stakeholder. -/
theorem C3_run_parameters_stage2_stage7_witness :
    (Stage2.runStage (Except.ok ()) (Except.ok "rows")
        { Stage2.init with assetId := "A1" }).2.1.head? =
      some (api.runStage 2 [("stakeholder", "Road User"), ("assetId", "A1")]) :=
  (C3_run_parameters_stage2_stage7 (Except.ok ()) (Except.ok "rows")
    { Stage2.init with assetId := "A1" } Stage7.init).2.1 (by simp)

/-- Claim C4 counterexample: the Stage 1 page reports no failure as an
error indicator.  After a failed run from the initial state the previously
displayed csv is indeed preserved, but the page renders no error element
(its JSX has none), so the failure is not reported as an error indicator. -/
theorem C4_counterexample :
    (Stage1.runStage (Except.error "backend down") (Except.ok "")
      Stage1.init).1.csv = Stage1.init.csv ∧
    Stage1.rendersErrorIndicator
      (Stage1.runStage (Except.error "backend down") (Except.ok "")
        Stage1.init).1 = false :=
  ⟨rfl, rfl⟩

/-- Claim C4 (amended): on every stage page a failed run leaves the
displayed csv exactly as it was; on the Stage 2 through Stage 7 pages the
failure is additionally reported through the rendered error indicator,
while the Stage 1 page has no error indicator to report it with. -/
theorem C4_failure_preserves_csv
    (ro : Except String Unit) (co : Except String String)
    (hfail : (isFail ro || isFail co) = true)
    (s1 : Stage1.State) (s2 : Stage2.State) (s3 : Stage3.State)
    (s4 : Stage4.State) (s5 : Stage5.State) (s6 : Stage6.State)
    (s7 : Stage7.State) :
    (Stage1.runStage ro co s1).1.csv = s1.csv ∧
    ((Stage2.runStage ro co s2).1.csv = s2.csv ∧
      Stage2.rendersErrorIndicator (Stage2.runStage ro co s2).1 = true) ∧
    ((Stage3.runStage ro co s3).1.csv = s3.csv ∧
      Stage3.rendersErrorIndicator (Stage3.runStage ro co s3).1 = true) ∧
    ((Stage4.runStage ro co s4).1.csv = s4.csv ∧
      Stage4.rendersErrorIndicator (Stage4.runStage ro co s4).1 = true) ∧
    ((Stage5.runStage ro co s5).1.csv = s5.csv ∧
      Stage5.rendersErrorIndicator (Stage5.runStage ro co s5).1 = true) ∧
    ((Stage6.runStage ro co s6).1.csv = s6.csv ∧
      Stage6.rendersErrorIndicator (Stage6.runStage ro co s6).1 = true) ∧
    ((Stage7.runStage ro co s7).1.csv = s7.csv ∧
      Stage7.rendersErrorIndicator (Stage7.runStage ro co s7).1 = true) := by
  refine ⟨?_, ⟨stage2_runStage_csv_on_fail ro co s2 hfail, ?_⟩,
    ⟨guardedRun_csv_on_fail 3 _ _ ro co s3 hfail, ?_⟩,
    ⟨guardedRun_csv_on_fail 4 _ _ ro co s4 hfail, ?_⟩,
    ⟨guardedRun_csv_on_fail 5 _ _ ro co s5 hfail, ?_⟩,
    ⟨guardedRun_csv_on_fail 6 _ _ ro co s6 hfail, ?_⟩,
    ⟨stage7_runStage_csv_on_fail ro co s7 hfail, ?_⟩⟩
  · cases ro <;> cases co <;> simp [Stage1.runStage] <;> simp [isFail] at hfail
  · have h := stage2_runStage_error_on_fail ro co s2 hfail
    simp [Stage2.rendersErrorIndicator, Option.isSome_iff_ne_none, h]
  · have h := guardedRun_error_on_fail 3 "impact_rating.csv"
      "Failed to run Stage 3. Check backend logs." ro co s3 hfail
    simp [Stage3.rendersErrorIndicator, Stage3.runStage, h]
  · have h := guardedRun_error_on_fail 4 "threat_scenarios.csv"
      "Failed to run Stage 4. Check backend logs." ro co s4 hfail
    simp [Stage4.rendersErrorIndicator, Stage4.runStage, h]
  · have h := guardedRun_error_on_fail 5 "attack_paths.csv"
      "Failed to run Stage 5. Check backend logs." ro co s5 hfail
    simp [Stage5.rendersErrorIndicator, Stage5.runStage, h]
  · have h := guardedRun_error_on_fail 6 "attack_feasibilities.csv"
      "Failed to run Stage 6. Check backend logs." ro co s6 hfail
    simp [Stage6.rendersErrorIndicator, Stage6.runStage, h]
  · have h := stage7_runStage_error_on_fail ro co s7 hfail
    simp [Stage7.rendersErrorIndicator, Option.isSome_iff_ne_none, h]

/-- Claim C4 witness: a concrete failed Stage 6 run preserves a previously
displayed csv and renders the error indicator. -/
theorem C4_failure_preserves_csv_witness :
    (Stage6.runStage (Except.error "boom") (Except.ok "")
      { Stage6.init with csv := some "old rows" }).1.csv = some "old rows" :=
  ((C4_failure_preserves_csv (Except.error "boom") (Except.ok "") rfl
    Stage1.init Stage2.init Stage3.init Stage4.init Stage5.init
    { Stage6.init with csv := some "old rows" }
    Stage7.init).2.2.2.2.2.1).1

/-- Claim C5: after a successful run, each stage page fetches its
committed artifact as tabular text under that stage's fixed stable name:
assets.csv, damage_scenarios.csv, impact_rating.csv, threat_scenarios.csv,
attack_paths.csv, attack_feasibilities.csv and risk_values.csv, via GET
/csv/:name. -/
theorem C5_fixed_artifact_names (d : String)
    (s1 : Stage1.State) (s2 : Stage2.State) (s3 : Stage3.State)
    (s4 : Stage4.State) (s5 : Stage5.State) (s6 : Stage6.State)
    (s7 : Stage7.State) (h2 : s2.assetId ≠ "") :
    (Stage1.runStage (Except.ok ()) (Except.ok d) s1).2.1 =
      [api.runStage 1, api.getCsv "assets.csv"] ∧
    (Stage2.runStage (Except.ok ()) (Except.ok d) s2).2.1 =
      [api.runStage 2 [("stakeholder", s2.stakeholder), ("assetId", s2.assetId)],
        api.getCsv "damage_scenarios.csv"] ∧
    (Stage3.runStage (Except.ok ()) (Except.ok d) s3).2.1 =
      [api.runStage 3, api.getCsv "impact_rating.csv"] ∧
    (Stage4.runStage (Except.ok ()) (Except.ok d) s4).2.1 =
      [api.runStage 4, api.getCsv "threat_scenarios.csv"] ∧
    (Stage5.runStage (Except.ok ()) (Except.ok d) s5).2.1 =
      [api.runStage 5, api.getCsv "attack_paths.csv"] ∧
    (Stage6.runStage (Except.ok ()) (Except.ok d) s6).2.1 =
      [api.runStage 6, api.getCsv "attack_feasibilities.csv"] ∧
    (Stage7.runStage (Except.ok ()) (Except.ok d) s7).2.1 =
      [api.runStage 7 [("stakeholder", s7.stakeholder)],
        api.getCsv "risk_values.csv"] ∧
    (∀ n : String, (api.getCsv n).method = HttpMethod.get ∧
      (api.getCsv n).url = API_BASE ++ "/csv/" ++ n) := by
  refine ⟨rfl, ?_, rfl, rfl, rfl, rfl, rfl, fun n => ⟨rfl, rfl⟩⟩
  simp [Stage2.runStage, h2]

/-- Claim C5 witness: a successful Stage 2 run with asset A1 fetches
damage_scenarios.csv after the run request. -/
theorem C5_fixed_artifact_names_witness :
    (Stage2.runStage (Except.ok ()) (Except.ok "h")
        { Stage2.init with assetId := "A1" }).2.1 =
      [api.runStage 2 [("stakeholder", "Road User"), ("assetId", "A1")],
        api.getCsv "damage_scenarios.csv"] :=
  (C5_fixed_artifact_names "h" Stage1.init
    { Stage2.init with assetId := "A1" } Stage3.init Stage4.init
    Stage5.init Stage6.init Stage7.init (by simp)).2.1

/-- Claim C6: api.runStage takes a stage id and an optional parameters
object defaulting to the empty object, and issues exactly one POST request
to /run-stage/:id with the parameters object as the request body (the
embedding maps the single axios.post call of api.runStage to the single
Request value it returns). -/
theorem C6_run_stage_is_single_post (id : Nat) (data : Params) :
    (api.runStage id data).method = HttpMethod.post ∧
    (api.runStage id data).url = API_BASE ++ "/run-stage/" ++ toString id ∧
    (api.runStage id data).body = data ∧
    api.runStage id = api.runStage id [] :=
  ⟨rfl, rfl, rfl, rfl⟩

/-- Claim C9: pressing the upload button with no selected file performs no
operation, and every invocation of the onUpload callback carries exactly
the selected (non-null) file. -/
theorem C9_upload_requires_file :
    (∀ s : FileUpload.State, s.file = none → FileUpload.handleUpload s = []) ∧
    (∀ (s : FileUpload.State) (f : JsFile),
      f ∈ FileUpload.handleUpload s → s.file = some f) := by
  constructor
  · intro s h
    simp [FileUpload.handleUpload, h]
  · intro s f h
    cases hf : s.file with
    | none => simp [FileUpload.handleUpload, hf] at h
    | some g =>
      simp [FileUpload.handleUpload, hf] at h
      simp [hf, h]

/-- Claim C9 witness: with no file selected, the upload button invokes
onUpload zero times. -/
theorem C9_upload_requires_file_witness :
    FileUpload.handleUpload FileUpload.init = [] :=
  C9_upload_requires_file.1 FileUpload.init rfl

/-- Claim C10: the modify panel send action calls onSubmit exactly once
with the current text and the current file (also when the text is empty),
then resets the text to the empty string and leaves the file selection
unchanged. -/
theorem C10_send_once_resets_text (s : ModifyPanel.State) :
    (ModifyPanel.handleSend s).2 = [(s.text, s.file)] ∧
    (ModifyPanel.handleSend s).1.text = "" ∧
    (ModifyPanel.handleSend s).1.file = s.file :=
  ⟨rfl, rfl, rfl⟩

/-- Claim C7: when the list-assets response is non-empty the first asset
becomes the selected asset and the indicator is cleared; when it is empty,
or the call fails, the page shows an indicator instructing the user to run
Stage 1 first. -/
theorem C7_assets_first_or_indicator
    (outcome : Except String (Option (List Asset))) (s : Stage2.State) :
    (∀ e, outcome = Except.error e →
      (Stage2.fetchAssets outcome s).error =
        some "Unable to load assets. Run Stage 1 first.") ∧
    (∀ data, outcome = Except.ok data → data.getD [] = [] →
      (Stage2.fetchAssets outcome s).error = some Stage2.emptyAssetsMsg) ∧
    (∀ data a rest, outcome = Except.ok data → data.getD [] = a :: rest →
      (Stage2.fetchAssets outcome s).assetId = a.assetId ∧
      (Stage2.fetchAssets outcome s).error = none) := by
  refine ⟨?_, ?_, ?_⟩
  · intro e he
    subst he
    simp [Stage2.fetchAssets]
  · intro data hd hnil
    subst hd
    simp [Stage2.fetchAssets, hnil]
  · intro data a rest hd hcons
    subst hd
    simp [Stage2.fetchAssets, hcons]

/-- Claim C7 witness: a singleton response selects that asset; a failed
response produces the run-Stage-1 indicator. -/
theorem C7_assets_first_or_indicator_witness :
    (Stage2.fetchAssets
      (Except.ok (some [{ assetId := "A1", description := "ECU" }]))
      Stage2.init).assetId = "A1" ∧
    (Stage2.fetchAssets (Except.error "network down") Stage2.init).error =
      some "Unable to load assets. Run Stage 1 first." :=
  ⟨((C7_assets_first_or_indicator
      (Except.ok (some [{ assetId := "A1", description := "ECU" }]))
      Stage2.init).2.2 (some [{ assetId := "A1", description := "ECU" }])
      { assetId := "A1", description := "ECU" } [] rfl rfl).1,
    (C7_assets_first_or_indicator (Except.error "network down")
      Stage2.init).1 "network down" rfl⟩

/-- Claim C8: every run request issued by the Stage 2 and Stage 7 pages
carries a stakeholder parameter ranging over exactly the two rendered
option values Road User and OEM; it equals Road User unless the user
changes the stakeholder selection.  Quantification is over arbitrary event
traces of each page from its initial state; the two existentials show both
option values are attainable. -/
theorem C8_stakeholder_range_and_default (evs2 : List Stage2.Ev)
    (evs7 : List Stage7.Ev) :
    (∀ r ∈ (Stage2.exec Stage2.init evs2).2, ∀ v,
      stakeholderParamOf r = some v → v ∈ stakeholderOptions) ∧
    ((∀ e ∈ evs2, Stage2.Ev.isChooseStakeholder e = false) →
      ∀ r ∈ (Stage2.exec Stage2.init evs2).2, ∀ v,
        stakeholderParamOf r = some v → v = "Road User") ∧
    (∀ r ∈ (Stage7.exec Stage7.init evs7).2, ∀ v,
      stakeholderParamOf r = some v → v ∈ stakeholderOptions) ∧
    ((∀ e ∈ evs7, Stage7.Ev.isChooseStakeholder e = false) →
      ∀ r ∈ (Stage7.exec Stage7.init evs7).2, ∀ v,
        stakeholderParamOf r = some v → v = "Road User") ∧
    (∃ evs : List Stage2.Ev, ∃ r ∈ (Stage2.exec Stage2.init evs).2,
      stakeholderParamOf r = some "OEM") ∧
    (∃ evs : List Stage7.Ev, ∃ r ∈ (Stage7.exec Stage7.init evs).2,
      stakeholderParamOf r = some "OEM") := by
  refine ⟨(stage2_exec_stakeholder_mem evs2 Stage2.init (by simp [Stage2.init, stakeholderOptions])).2,
    fun hno => (stage2_exec_stakeholder_default evs2 Stage2.init hno).2,
    (stage7_exec_stakeholder_mem evs7 Stage7.init (by simp [Stage7.init, stakeholderOptions])).2,
    fun hno => (stage7_exec_stakeholder_default evs7 Stage7.init hno).2, ?_, ?_⟩
  · refine ⟨[Stage2.Ev.chooseAsset "A1",
      Stage2.Ev.chooseStakeholder ⟨1, by simp [stakeholderOptions]⟩,
      Stage2.Ev.run (Except.ok ()) (Except.ok "rows")],
      api.runStage 2 [("stakeholder", "OEM"), ("assetId", "A1")], ?_, ?_⟩
    · rw [show (Stage2.exec Stage2.init
        [Stage2.Ev.chooseAsset "A1",
          Stage2.Ev.chooseStakeholder ⟨1, by simp [stakeholderOptions]⟩,
          Stage2.Ev.run (Except.ok ()) (Except.ok "rows")]).2 =
        [api.runStage 2 [("stakeholder", "OEM"), ("assetId", "A1")],
          api.getCsv "damage_scenarios.csv"] from rfl]
      exact List.mem_cons_self _ _
    · exact stakeholderParamOf_runStage_cons 2 "OEM" [("assetId", "A1")]
  · refine ⟨[Stage7.Ev.chooseStakeholder ⟨1, by simp [stakeholderOptions]⟩,
      Stage7.Ev.run (Except.ok ()) (Except.ok "rows")],
      api.runStage 7 [("stakeholder", "OEM")], ?_, ?_⟩
    · rw [show (Stage7.exec Stage7.init
        [Stage7.Ev.chooseStakeholder ⟨1, by simp [stakeholderOptions]⟩,
          Stage7.Ev.run (Except.ok ()) (Except.ok "rows")]).2 =
        [api.runStage 7 [("stakeholder", "OEM")],
          api.getCsv "risk_values.csv"] from rfl]
      exact List.mem_cons_self _ _
    · exact stakeholderParamOf_runStage_cons 7 "OEM" []

/-- Claim C8 witness: the run request of a Stage 7 trace that never
touches the stakeholder select carries the default value Road User, which
is one of the two rendered options. -/
theorem C8_stakeholder_range_and_default_witness :
    ("Road User" : String) ∈ stakeholderOptions :=
  (C8_stakeholder_range_and_default []
    [Stage7.Ev.run (Except.ok ()) (Except.ok "rows")]).2.2.1
    (api.runStage 7 [("stakeholder", "Road User")])
    (by rw [show (Stage7.exec Stage7.init
        [Stage7.Ev.run (Except.ok ()) (Except.ok "rows")]).2 =
        [api.runStage 7 [("stakeholder", "Road User")],
          api.getCsv "risk_values.csv"] from rfl]
        exact List.mem_cons_self _ _)
    "Road User" (stakeholderParamOf_runStage_cons 7 "Road User" [])
